import Mathlib

/-!
# Session helper (`static/js/app.js`)

A shallow embedding of the client-side script: the token slot in `localStorage`,
the assignments to `window.location.href`, and the logout button binding made
when `DOMContentLoaded` fires.

The browser is modelled by an explicit `World`; every JavaScript function of the
script is a computation in the monad `JS`, which threads the `World` and can
throw: a method call on `null` is a `TypeError`, and a write that takes
`localStorage` over its quota is a `QuotaExceededError`. The script catches
neither, so a throw ends the running call with the world as it was at the
throw.
-/

namespace SessionHelper

/-! ## Browser environment -/

/-- The key/value pairs of `localStorage`, in the order the keys were created. -/
abbrev Storage := List (String × String)

/-- The JavaScript values the script handles: `null`, a string, or a reference
to an element of the document (its position in tree order). -/
inductive Value where
  | null
  | str (s : String)
  | elem (i : Nat)
  deriving DecidableEq, Repr

/-- JavaScript `ToBoolean`: `null` and the empty string are falsy, every other
string and every object is truthy. -/
def Value.truthy : Value → Bool
  | .null => false
  | .str s => decide (s ≠ "")
  | .elem _ => true

/-- The two arrow functions the script registers as event listeners. -/
inductive Listener where
  /-- The hook `() => { const logoutBtn = ...; if (logoutBtn) { ... } }` of lines 22-30. -/
  | domContentLoaded
  /-- The handler `(e) => { e.preventDefault(); logout(); }` of lines 25-28. -/
  | logoutClick
  deriving DecidableEq, Repr

/-- Where a listener is attached: the document, or the element at a position. -/
inductive Target where
  | document
  | element (i : Nat)
  deriving DecidableEq, Repr

/-- An element of the page markup: its `id` attribute and, when the control has
a default action that navigates (the `href` of a link, the action of a form),
the URL that default action goes to. -/
structure Element where
  id : String
  defaultHref : Option String
  deriving DecidableEq, Repr

/-- A DOM event: its type, whether it can be cancelled, and the cancelled flag. -/
structure Event where
  type : String
  cancelable : Bool
  defaultPrevented : Bool
  deriving DecidableEq, Repr

/-- The method `e.preventDefault()`: sets the cancelled flag of a cancelable event. -/
def Event.preventDefault (e : Event) : Event :=
  if e.cancelable then { e with defaultPrevented := true } else e

/-- The state of the page the script runs in. -/
structure World where
  /-- The contents of `localStorage`. -/
  storage : Storage
  /-- Every URL assigned to `window.location.href` or followed by a default
  action, oldest first. -/
  navigations : List String
  /-- The elements of the document, in tree order. -/
  elements : List Element
  /-- The registered event listeners, in registration order. -/
  listeners : List (Target × String × Listener)
  /-- The storage quota of the origin: how many UTF-16 code units of keys and
  values the user agent lets `localStorage` hold. -/
  quota : Nat
  deriving DecidableEq, Repr

/-- An uncaught exception: its name and the world at the moment of the throw. -/
structure Thrown where
  name : String
  world : World
  deriving DecidableEq, Repr

/-- JavaScript computations: they read and update the `World`, and either return
a value or throw. -/
abbrev JS := StateT World (Except Thrown)

/-- The navigation target: the last URL the page was sent to, if any. -/
def World.navTarget (w : World) : Option String := w.navigations.getLast?

/-! ### `localStorage` -/

/-- The value stored under key `k`, if any. -/
def Storage.lookup : Storage → String → Option String
  | [], _ => none
  | (k', v) :: rest, k => if k' = k then some v else Storage.lookup rest k

/-- Store `v` under key `k`: overwrite the value of an existing key, or add the
pair at the end. -/
def Storage.insert : Storage → String → String → Storage
  | [], k, v => [(k, v)]
  | (k', v') :: rest, k, v =>
    if k' = k then (k', v) :: rest else (k', v') :: Storage.insert rest k v

/-- Remove key `k` and its value. -/
def Storage.erase : Storage → String → Storage
  | [], _ => []
  | (k', v') :: rest, k =>
    if k' = k then Storage.erase rest k else (k', v') :: Storage.erase rest k

/-- The length of a JavaScript string: its number of UTF-16 code units. -/
def utf16Length (s : String) : Nat :=
  (s.toList.map fun c => if c.toNat < 65536 then 1 else 2).sum

/-- The space a storage takes: the code units of all its keys and values. -/
def Storage.size (st : Storage) : Nat :=
  (st.map fun p => utf16Length p.1 + utf16Length p.2).sum

/-- The call `localStorage.getItem(key)`: the stored string, or `null`. -/
def localStorage_getItem (key : String) : JS Value := do
  let w ← get
  match w.storage.lookup key with
  | some v => return Value.str v
  | none => return Value.null

/-- The call `localStorage.setItem(key, value)`: stores the pair when the
storage stays within the quota, and otherwise throws `QuotaExceededError` and
stores nothing. -/
def localStorage_setItem (key value : String) : JS Unit := do
  let w ← get
  let storage := w.storage.insert key value
  if storage.size ≤ w.quota then
    set { w with storage := storage }
  else
    throw { name := "QuotaExceededError", world := w }

/-- The call `localStorage.removeItem(key)`. -/
def localStorage_removeItem (key : String) : JS Unit :=
  modify fun w => { w with storage := w.storage.erase key }

/-! ### `window.location` -/

/-- The assignment `window.location.href = url`: starts a navigation to `url`. -/
def window_location_href_set (url : String) : JS Unit :=
  modify fun w => { w with navigations := w.navigations ++ [url] }

/-! ### `document` and event targets -/

/-- Position of the first element with the given `id` at or after position `i`. -/
def findById (id : String) : List Element → Nat → Option Nat
  | [], _ => none
  | el :: rest, i => if el.id = id then some i else findById id rest (i + 1)

/-- The call `document.getElementById(id)`: the first element in tree order with
that `id`, or `null`. -/
def document_getElementById (id : String) : JS Value := do
  let w ← get
  match findById id w.elements 0 with
  | some i => return Value.elem i
  | none => return Value.null

/-- The call `target.addEventListener(type, listener)` on an event target. -/
def addEventListener (target : Target) (type : String) (l : Listener) : JS Unit :=
  modify fun w => { w with listeners := w.listeners ++ [(target, type, l)] }

/-- The call `receiver.addEventListener(type, listener)` where the receiver is a
value: calling a method on `null` or a DOM method on a string throws. -/
def Value.addEventListener (receiver : Value) (type : String) (l : Listener) : JS Unit := do
  match receiver with
  | .elem i => SessionHelper.addEventListener (Target.element i) type l
  | .null => throw { name := "TypeError", world := ← get }
  | .str _ => throw { name := "TypeError", world := ← get }

/-! ## The script -/

/-- Line 1: `const API_URL = "";` -/
def API_URL : String := ""

/-- Lines 3-5. -/
def getToken : JS Value :=
  localStorage_getItem "token"

/-- Lines 7-9. The argument is taken to be a string, the input type the spec
gives; `setItem` would convert any other value to a string first. -/
def setToken (token : String) : JS Unit :=
  localStorage_setItem "token" token

/-- Lines 11-14. -/
def logout : JS Unit := do
  localStorage_removeItem "token"
  window_location_href_set "/login"

/-- Lines 16-20. -/
def requireAuth : JS Unit := do
  if !(← getToken).truthy then
    window_location_href_set "/login"

/-- The bodies of the two listeners; the event object is passed in and handed
back with the changes the listener made to it. -/
def Listener.call : Listener → Event → JS Event
  | .domContentLoaded, e => do
    let logoutBtn ← document_getElementById "logout-btn"
    if logoutBtn.truthy then
      logoutBtn.addEventListener "click" Listener.logoutClick
    return e
  | .logoutClick, e => do
    let e := e.preventDefault
    logout
    return e

/-- Line 22, the top level of the script: register the initialization hook. -/
def script : JS Unit :=
  addEventListener Target.document "DOMContentLoaded" Listener.domContentLoaded

/-! ## Event dispatch -/

/-- Call the listeners in order on the event. -/
def callAll : List Listener → Event → JS Event
  | [], e => return e
  | l :: rest, e => do
    let e ← l.call e
    callAll rest e

/-- The listeners registered on `target` for events of type `type`. -/
def World.listenersOn (w : World) (target : Target) (type : String) : List Listener :=
  (w.listeners.filter fun r => r.1 = target ∧ r.2.1 = type).map fun r => r.2.2

/-- The browser fires `DOMContentLoaded` on the document once the markup is
parsed. -/
def fireDOMContentLoaded : JS Event := do
  let w ← get
  callAll (w.listenersOn Target.document "DOMContentLoaded")
    { type := "DOMContentLoaded", cancelable := false, defaultPrevented := false }

/-- The URL the default action of the element at position `i` navigates to, if
the element exists and has such a default action. -/
def World.defaultHref (w : World) (i : Nat) : Option String :=
  (w.elements.get? i).bind Element.defaultHref

/-- A click on the element at position `i`: a cancelable `click` event goes to
the listeners of the element, then bubbles to those of the document; unless a
listener cancelled it, the default action of the control follows. -/
def click (i : Nat) : JS Event := do
  let w ← get
  let e : Event := { type := "click", cancelable := true, defaultPrevented := false }
  let e ← callAll (w.listenersOn (Target.element i) "click") e
  let e ← callAll (w.listenersOn Target.document "click") e
  if !e.defaultPrevented then
    match w.defaultHref i with
    | some url => window_location_href_set url
    | none => pure ()
  return e

/-- The usual storage quota of an origin: five million UTF-16 code units. -/
def defaultQuota : Nat := 5000000

/-- The page as the browser hands it to the script: the given markup and
storage, nothing navigated, no listener bound, the usual quota. -/
def World.fresh (storage : Storage) (elements : List Element) : World :=
  { storage := storage, navigations := [], elements := elements, listeners := [],
    quota := defaultQuota }

/-- Loading the page: the script runs, then `DOMContentLoaded` fires. -/
def pageLoad : JS Event := do
  script
  fireDOMContentLoaded

/-! ## How each operation acts on the world -/

theorem lookup_insert_self (st : Storage) (k v : String) :
    (st.insert k v).lookup k = some v := by
  induction st with
  | nil => simp [Storage.insert, Storage.lookup]
  | cons p rest ih =>
    obtain ⟨k', v'⟩ := p
    by_cases h : k' = k <;> simp [Storage.insert, Storage.lookup, h, ih]

theorem lookup_insert_other (st : Storage) (k v j : String) (hj : j ≠ k) :
    (st.insert k v).lookup j = st.lookup j := by
  induction st with
  | nil => simp [Storage.insert, Storage.lookup, Ne.symm hj]
  | cons p rest ih =>
    obtain ⟨k', v'⟩ := p
    by_cases h : k' = k
    · subst h
      simp [Storage.insert, Storage.lookup, Ne.symm hj]
    · by_cases h2 : k' = j
      · subst h2
        simp [Storage.insert, Storage.lookup, hj]
      · simp [Storage.insert, Storage.lookup, h, h2, ih]

theorem insert_insert (st : Storage) (k a b : String) :
    (st.insert k a).insert k b = st.insert k b := by
  induction st with
  | nil => simp [Storage.insert]
  | cons p rest ih =>
    obtain ⟨k', v'⟩ := p
    by_cases h : k' = k <;> simp [Storage.insert, h, ih]

theorem lookup_erase_self (st : Storage) (k : String) :
    (st.erase k).lookup k = none := by
  induction st with
  | nil => simp [Storage.erase, Storage.lookup]
  | cons p rest ih =>
    obtain ⟨k', v'⟩ := p
    by_cases h : k' = k <;> simp [Storage.erase, Storage.lookup, h, ih]

theorem lookup_erase_other (st : Storage) (k j : String) (hj : j ≠ k) :
    (st.erase k).lookup j = st.lookup j := by
  induction st with
  | nil => simp [Storage.erase, Storage.lookup]
  | cons p rest ih =>
    obtain ⟨k', v'⟩ := p
    by_cases h : k' = k
    · subst h
      simp [Storage.erase, Storage.lookup, Ne.symm hj, ih]
    · by_cases h2 : k' = j
      · subst h2
        simp [Storage.erase, Storage.lookup, hj]
      · simp [Storage.erase, Storage.lookup, h, h2, ih]

theorem erase_of_lookup_none (st : Storage) (k : String) (h : st.lookup k = none) :
    st.erase k = st := by
  induction st with
  | nil => simp [Storage.erase]
  | cons p rest ih =>
    obtain ⟨k', v'⟩ := p
    by_cases hk : k' = k
    · simp [Storage.lookup, hk] at h
    · simp [Storage.lookup, hk] at h
      simp [Storage.erase, hk, ih h]

theorem erase_erase (st : Storage) (k : String) :
    (st.erase k).erase k = st.erase k :=
  erase_of_lookup_none _ _ (lookup_erase_self st k)

/-- The value `getToken()` returns in a given storage state. -/
theorem getToken_run (w : World) :
    getToken.run w =
      Except.ok ((match w.storage.lookup "token" with
        | some v => Value.str v
        | none => Value.null), w) := by
  cases h : w.storage.lookup "token" <;>
    simp [getToken, localStorage_getItem, h, StateT.run, bind, StateT.bind, get, getThe,
      MonadStateOf.get, StateT.get, pure, StateT.pure, Except.bind, Except.pure]

/-- A write that stays within the quota is stored. -/
theorem setToken_run_ok (v : String) (w : World)
    (h : (w.storage.insert "token" v).size ≤ w.quota) :
    (setToken v).run w =
      Except.ok ((), { w with storage := w.storage.insert "token" v }) := by
  simp [setToken, localStorage_setItem, h, StateT.run, bind, StateT.bind, get, getThe,
    MonadStateOf.get, StateT.get, set, StateT.set, pure, StateT.pure, Except.bind, Except.pure]

/-- A write that would take the storage over the quota throws and stores
nothing. -/
theorem setToken_run_throw (v : String) (w : World)
    (h : ¬ (w.storage.insert "token" v).size ≤ w.quota) :
    (setToken v).run w = Except.error { name := "QuotaExceededError", world := w } := by
  simp [setToken, localStorage_setItem, h, StateT.run, bind, StateT.bind, get, getThe,
    MonadStateOf.get, StateT.get, pure, StateT.pure, Except.bind, Except.pure, throw,
    throwThe, MonadExceptOf.throw, StateT.lift, liftM, monadLift, MonadLift.monadLift]

theorem logout_run (w : World) :
    logout.run w =
      Except.ok ((), { w with storage := w.storage.erase "token",
                              navigations := w.navigations ++ ["/login"] }) := rfl

theorem requireAuth_run (w : World) :
    requireAuth.run w =
      Except.ok ((), match w.storage.lookup "token" with
        | some v => if v = "" then { w with navigations := w.navigations ++ ["/login"] } else w
        | none => { w with navigations := w.navigations ++ ["/login"] }) := by
  cases h : w.storage.lookup "token" with
  | none =>
    simp [requireAuth, getToken, localStorage_getItem, window_location_href_set, h, StateT.run,
      bind, StateT.bind, get, getThe, MonadStateOf.get, StateT.get, pure, StateT.pure,
      Except.bind, Except.pure, Value.truthy, modify, modifyGet, MonadStateOf.modifyGet,
      StateT.modifyGet]
  | some v =>
    by_cases hv : v = "" <;>
    simp [requireAuth, getToken, localStorage_getItem, window_location_href_set, h, StateT.run,
      bind, StateT.bind, get, getThe, MonadStateOf.get, StateT.get, pure, StateT.pure,
      Except.bind, Except.pure, Value.truthy, modify, modifyGet, MonadStateOf.modifyGet,
      StateT.modifyGet, hv]

theorem findById_eq_none (id : String) (els : List Element) (n : Nat)
    (h : ∀ el ∈ els, el.id ≠ id) : findById id els n = none := by
  induction els generalizing n with
  | nil => rfl
  | cons el rest ih =>
    have h1 : el.id ≠ id := h el (List.mem_cons_self _ _)
    have h2 : ∀ x ∈ rest, x.id ≠ id := fun x hx => h x (List.mem_cons_of_mem _ hx)
    simp [findById, h1, ih (n + 1) h2]

theorem findById_isSome (id : String) (els : List Element) (n : Nat)
    (h : ∃ el ∈ els, el.id = id) : ∃ i, findById id els n = some i := by
  induction els generalizing n with
  | nil => simp at h
  | cons el rest ih =>
    by_cases h1 : el.id = id
    · exact ⟨n, by simp [findById, h1]⟩
    · obtain ⟨x, hx, hxid⟩ := h
      rcases List.mem_cons.mp hx with rfl | hx
      · exact absurd hxid h1
      · obtain ⟨i, hi⟩ := ih (n + 1) ⟨x, hx, hxid⟩
        exact ⟨i, by simp [findById, h1, hi]⟩

theorem findById_spec (id : String) (els : List Element) (n i : Nat)
    (h : findById id els n = some i) :
    n ≤ i ∧ (els.get? (i - n)).map Element.id = some id ∧
      ∀ j, j < i - n → (els.get? j).map Element.id ≠ some id := by
  induction els generalizing n with
  | nil => simp [findById] at h
  | cons el rest ih =>
    by_cases h1 : el.id = id
    · simp [findById, h1] at h
      subst h
      simp [h1]
    · simp [findById, h1] at h
      obtain ⟨hle, hget, hmin⟩ := ih (n + 1) h
      have hpos : i - n = (i - (n + 1)) + 1 := by omega
      refine ⟨by omega, ?_, ?_⟩
      · rw [hpos]
        simpa using hget
      · intro j hj
        cases j with
        | zero => simpa using h1
        | succ j =>
          have := hmin j (by omega)
          simpa using this

/-- The initialization hook on a page where the lookup finds nothing. -/
theorem hook_run_none (e : Event) (w : World)
    (h : findById "logout-btn" w.elements 0 = none) :
    (Listener.domContentLoaded.call e).run w = Except.ok (e, w) := by
  simp [Listener.call, document_getElementById, h, StateT.run, bind, StateT.bind, get, getThe,
    MonadStateOf.get, StateT.get, pure, StateT.pure, Except.bind, Except.pure, Value.truthy]

/-- The initialization hook on a page where the lookup finds the element at
position `i`. -/
theorem hook_run_some (e : Event) (w : World) (i : Nat)
    (h : findById "logout-btn" w.elements 0 = some i) :
    (Listener.domContentLoaded.call e).run w =
      Except.ok (e, { w with listeners :=
        w.listeners ++ [(Target.element i, "click", Listener.logoutClick)] }) := by
  simp [Listener.call, document_getElementById, h, StateT.run, bind, StateT.bind, get, getThe,
    MonadStateOf.get, StateT.get, pure, StateT.pure, Except.bind, Except.pure, Value.truthy,
    Value.addEventListener, addEventListener, modify, modifyGet, MonadStateOf.modifyGet,
    StateT.modifyGet]

/-- Loading a page on which no listener is bound yet and the lookup finds the
element at position `i`. -/
theorem pageLoad_run_some (w : World) (i : Nat) (hl : w.listeners = [])
    (h : findById "logout-btn" w.elements 0 = some i) :
    pageLoad.run w =
      Except.ok ({ type := "DOMContentLoaded", cancelable := false, defaultPrevented := false },
        { w with listeners :=
          [(Target.document, "DOMContentLoaded", Listener.domContentLoaded),
           (Target.element i, "click", Listener.logoutClick)] }) := by
  simp [pageLoad, script, fireDOMContentLoaded, World.listenersOn, callAll, hl,
    Listener.call, document_getElementById, h, StateT.run, bind, StateT.bind, get, getThe,
    MonadStateOf.get, StateT.get, pure, StateT.pure, Except.bind, Except.pure, Value.truthy,
    Value.addEventListener, addEventListener, modify, modifyGet, MonadStateOf.modifyGet,
    StateT.modifyGet]

/-- Loading a page on which no listener is bound yet and the lookup finds
nothing. -/
theorem pageLoad_run_none (w : World) (hl : w.listeners = [])
    (h : findById "logout-btn" w.elements 0 = none) :
    pageLoad.run w =
      Except.ok ({ type := "DOMContentLoaded", cancelable := false, defaultPrevented := false },
        { w with listeners :=
          [(Target.document, "DOMContentLoaded", Listener.domContentLoaded)] }) := by
  simp [pageLoad, script, fireDOMContentLoaded, World.listenersOn, callAll, hl,
    Listener.call, document_getElementById, h, StateT.run, bind, StateT.bind, get, getThe,
    MonadStateOf.get, StateT.get, pure, StateT.pure, Except.bind, Except.pure, Value.truthy,
    addEventListener, modify, modifyGet, MonadStateOf.modifyGet, StateT.modifyGet]

/-- A click on an element that carries the logout listener and nothing else. -/
theorem click_run_bound (w : World) (i : Nat)
    (h1 : w.listenersOn (Target.element i) "click" = [Listener.logoutClick])
    (h2 : w.listenersOn Target.document "click" = []) :
    (click i).run w =
      Except.ok ({ type := "click", cancelable := true, defaultPrevented := true },
        { w with storage := w.storage.erase "token",
                 navigations := w.navigations ++ ["/login"] }) := by
  simp [click, h1, h2, callAll, Listener.call, Event.preventDefault, logout,
    localStorage_removeItem, window_location_href_set, StateT.run, bind, StateT.bind, get,
    getThe, MonadStateOf.get, StateT.get, pure, StateT.pure, Except.bind, Except.pure,
    modify, modifyGet, MonadStateOf.modifyGet, StateT.modifyGet]

/-- A click on an element without listeners follows the default action. -/
theorem click_run_unbound (w : World) (i : Nat)
    (h1 : w.listenersOn (Target.element i) "click" = [])
    (h2 : w.listenersOn Target.document "click" = []) :
    (click i).run w =
      Except.ok ({ type := "click", cancelable := true, defaultPrevented := false },
        match w.defaultHref i with
        | some url => { w with navigations := w.navigations ++ [url] }
        | none => w) := by
  cases h : w.defaultHref i <;>
  simp [click, h1, h2, h, callAll, window_location_href_set, StateT.run, bind, StateT.bind, get,
    getThe, MonadStateOf.get, StateT.get, pure, StateT.pure, Except.bind, Except.pure,
    modify, modifyGet, MonadStateOf.modifyGet, StateT.modifyGet]

theorem navTarget_append (w : World) (url : String) (st : Storage) :
    World.navTarget { w with storage := st, navigations := w.navigations ++ [url] } = some url := by
  simp [World.navTarget]

theorem localStorage_getItem_run (k : String) (w : World) :
    (localStorage_getItem k).run w =
      Except.ok ((match w.storage.lookup k with
        | some v => Value.str v
        | none => Value.null), w) := by
  cases h : w.storage.lookup k <;>
    simp [localStorage_getItem, h, StateT.run, bind, StateT.bind, get, getThe,
      MonadStateOf.get, StateT.get, pure, StateT.pure, Except.bind, Except.pure]

/-! ## The claims -/

/-- C1, as amended: in every world and for every string `v`, the empty string
included, such that storing `v` under `token` keeps the storage within the
quota, `setToken(v)` returns normally and `getToken()` called right after it
returns exactly the string `v` (and leaves the world as `setToken` left it).
When the write would take the storage over the quota, `setToken(v)` throws
`QuotaExceededError` and leaves the world as it was. -/
theorem getToken_after_setToken (w : World) (v : String) :
    ((w.storage.insert "token" v).size ≤ w.quota →
      ∃ w', (setToken v).run w = Except.ok ((), w') ∧
        getToken.run w' = Except.ok (Value.str v, w') ∧
        (setToken v >>= fun _ => getToken).run w = Except.ok (Value.str v, w')) ∧
    (¬ (w.storage.insert "token" v).size ≤ w.quota →
      (setToken v).run w = Except.error { name := "QuotaExceededError", world := w }) := by
  refine ⟨fun hfit => ?_, setToken_run_throw v w⟩
  refine ⟨{ w with storage := w.storage.insert "token" v }, setToken_run_ok v w hfit, ?_, ?_⟩
  · rw [getToken_run]
    simp [lookup_insert_self]
  · rw [StateT.run_bind, setToken_run_ok v w hfit]
    show getToken.run _ = _
    rw [getToken_run]
    simp [lookup_insert_self]

/-- Witness for C1, as amended: the empty string written over a stored token,
with another key in the storage. -/
theorem getToken_after_setToken_witness :
    ∃ w', (setToken "").run (World.fresh [("theme", "dark"), ("token", "old")] []) =
        Except.ok ((), w') ∧
      getToken.run w' = Except.ok (Value.str "", w') := by
  obtain ⟨w', h1, h2, _⟩ :=
    (getToken_after_setToken (World.fresh [("theme", "dark"), ("token", "old")] []) "").1
      (by decide)
  exact ⟨w', h1, h2⟩

/-- Counterexample to C1 as stated: with a quota of eight code units and an
empty storage, `setToken("abc123")` needs eleven, throws `QuotaExceededError`
and stores nothing, so `getToken()` right after it returns `null`, not
`"abc123"`. -/
theorem setToken_over_quota :
    (setToken "abc123").run { World.fresh [] [] with quota := 8 } =
      Except.error { name := "QuotaExceededError",
                     world := { World.fresh [] [] with quota := 8 } } ∧
    getToken.run { World.fresh [] [] with quota := 8 } =
      Except.ok (Value.null, { World.fresh [] [] with quota := 8 }) ∧
    ¬ ∃ w', (setToken "abc123").run { World.fresh [] [] with quota := 8 } =
        Except.ok ((), w') ∧
      getToken.run w' = Except.ok (Value.str "abc123", w') := by
  have hthrow : (setToken "abc123").run { World.fresh [] [] with quota := 8 } =
      Except.error { name := "QuotaExceededError",
                     world := { World.fresh [] [] with quota := 8 } } :=
    setToken_run_throw _ _ (by decide)
  refine ⟨hthrow, rfl, ?_⟩
  rintro ⟨w', h, _⟩
  rw [hthrow] at h
  exact Except.noConfusion h

/-- C2: in every world, token stored or not, `getToken()` after `logout()`
returns `null`; a second `logout()` leaves the storage exactly as the first one
left it, and `getToken()` still returns `null`. -/
theorem getToken_after_logout (w : World) :
    ∃ w1 w2, logout.run w = Except.ok ((), w1) ∧
      getToken.run w1 = Except.ok (Value.null, w1) ∧
      logout.run w1 = Except.ok ((), w2) ∧
      w2.storage = w1.storage ∧
      getToken.run w2 = Except.ok (Value.null, w2) := by
  refine ⟨_, _, logout_run w, ?_, logout_run _, ?_, ?_⟩
  · rw [getToken_run]
    simp [lookup_erase_self]
  · simp [erase_erase]
  · rw [getToken_run]
    simp [lookup_erase_self]

/-- C3: in every world, `requireAuth()` assigns `'/login'` to
`window.location.href` if and only if `getToken()` returns `null` or the empty
string; then the navigation target is `'/login'`. A stored empty string causes
the redirect, and with any stored non-empty string the world is left as it
was. -/
theorem requireAuth_navigates_iff (w : World) :
    ∃ t w', getToken.run w = Except.ok (t, w) ∧
      requireAuth.run w = Except.ok ((), w') ∧
      (w'.navigations = w.navigations ++ ["/login"] ↔ (t = Value.null ∨ t = Value.str "")) ∧
      ((t = Value.null ∨ t = Value.str "") → w'.navTarget = some "/login") ∧
      (w.storage.lookup "token" = some "" → w'.navigations = w.navigations ++ ["/login"]) ∧
      (∀ s, s ≠ "" → w.storage.lookup "token" = some s → w' = w) := by
  refine ⟨_, _, getToken_run w, requireAuth_run w, ?_⟩
  cases h : w.storage.lookup "token" with
  | none => simp [World.navTarget]
  | some s =>
    by_cases hs : s = ""
    · subst hs
      simp only [World.navTarget]
      refine ⟨by simp, by simp, by simp, ?_⟩
      intro s hs heq
      exact absurd (Option.some.inj heq).symm hs
    · simp [hs]

/-- Witness for C3: an empty stored token redirects, the token `"abc123"` does
not. -/
theorem requireAuth_navigates_iff_witness :
    (∃ w', requireAuth.run (World.fresh [("token", "")] []) = Except.ok ((), w') ∧
      w'.navigations = ["/login"]) ∧
    (∃ w', requireAuth.run (World.fresh [("token", "abc123")] []) = Except.ok ((), w') ∧
      w' = World.fresh [("token", "abc123")] []) := by
  constructor
  · obtain ⟨_, w', _, h, _, _, hempty, _⟩ :=
      requireAuth_navigates_iff (World.fresh [("token", "")] [])
    exact ⟨w', h, hempty (by decide)⟩
  · obtain ⟨_, w', _, h, _, _, _, hfull⟩ :=
      requireAuth_navigates_iff (World.fresh [("token", "abc123")] [])
    exact ⟨w', h, hfull "abc123" (by decide) (by decide)⟩

/-- C4: in every world `logout()` assigns `'/login'` to `window.location.href`,
so the navigation target is `'/login'` whether or not a token was stored; when
`getToken()` returned `null` before the call, the storage after the call is the
storage before it. -/
theorem logout_navigates (w : World) :
    ∃ w', logout.run w = Except.ok ((), w') ∧
      w'.navigations = w.navigations ++ ["/login"] ∧
      w'.navTarget = some "/login" ∧
      (getToken.run w = Except.ok (Value.null, w) → w'.storage = w.storage) := by
  refine ⟨_, logout_run w, rfl, navTarget_append w _ _, ?_⟩
  intro h
  rw [getToken_run] at h
  cases hl : w.storage.lookup "token" with
  | none => exact erase_of_lookup_none _ _ hl
  | some s => simp [hl] at h

/-- Witness for C4: a storage holding only another key is left as it was. -/
theorem logout_navigates_witness :
    ∃ w', logout.run (World.fresh [("theme", "dark")] []) = Except.ok ((), w') ∧
      w'.navTarget = some "/login" ∧ w'.storage = [("theme", "dark")] := by
  obtain ⟨w', h, _, hnav, hst⟩ := logout_navigates (World.fresh [("theme", "dark")] [])
  exact ⟨w', h, hnav, hst rfl⟩

/-- C7, as amended: for all strings `a` and `b` and every world in which
storing `a` under `token`, and storing `b` under `token`, each keep the storage
within the quota, `setToken(a)` followed by `setToken(b)` leaves the world, its
storage included, exactly as `setToken(b)` alone does, and `getToken()` then
returns `b`; with `a = b = v` this says that writing `v` twice equals writing
it once. -/
theorem setToken_last_write_wins (w : World) (a b : String)
    (ha : (w.storage.insert "token" a).size ≤ w.quota)
    (hb : (w.storage.insert "token" b).size ≤ w.quota) :
    ∃ w1 w2, (setToken a).run w = Except.ok ((), w1) ∧
      (setToken b).run w1 = Except.ok ((), w2) ∧
      (setToken b).run w = Except.ok ((), w2) ∧
      (setToken a >>= fun _ => setToken b).run w = (setToken b).run w ∧
      getToken.run w2 = Except.ok (Value.str b, w2) := by
  have hb1 : (({ w with storage := w.storage.insert "token" a } : World).storage.insert
      "token" b).size ≤ ({ w with storage := w.storage.insert "token" a } : World).quota := by
    simpa [insert_insert] using hb
  have h2 : (setToken b).run { w with storage := w.storage.insert "token" a } =
      Except.ok ((), { w with storage := w.storage.insert "token" b }) := by
    rw [setToken_run_ok b _ hb1]
    simp [insert_insert]
  refine ⟨_, _, setToken_run_ok a w ha, h2, setToken_run_ok b w hb, ?_, ?_⟩
  · rw [StateT.run_bind, setToken_run_ok a w ha]
    show (setToken b).run _ = _
    rw [h2, setToken_run_ok b w hb]
  · rw [getToken_run]
    simp [lookup_insert_self]

/-- Witness for C7, as amended: `"old"` then `"abc123"` over an unrelated key. -/
theorem setToken_last_write_wins_witness :
    ∃ w2, (setToken "old" >>= fun _ => setToken "abc123").run
        (World.fresh [("theme", "dark")] []) = Except.ok ((), w2) ∧
      (setToken "abc123").run (World.fresh [("theme", "dark")] []) = Except.ok ((), w2) ∧
      getToken.run w2 = Except.ok (Value.str "abc123", w2) := by
  obtain ⟨_, w2, _, _, h3, h4, h5⟩ :=
    setToken_last_write_wins (World.fresh [("theme", "dark")] []) "old" "abc123"
      (by decide) (by decide)
  exact ⟨w2, h4.trans h3, h3, h5⟩

/-- Counterexample to C7 as stated: with a quota of eight code units and an
empty storage, `setToken("a")` is stored and `setToken("abc123")` after it
throws, leaving `"a"` stored, while `setToken("abc123")` alone throws and leaves
the storage empty: the two storages differ and `getToken()` returns `"a"`, not
`"abc123"`. -/
theorem setToken_twice_over_quota :
    (setToken "a").run { World.fresh [] [] with quota := 8 } =
      Except.ok ((), { World.fresh [("token", "a")] [] with quota := 8 }) ∧
    (setToken "abc123").run { World.fresh [("token", "a")] [] with quota := 8 } =
      Except.error { name := "QuotaExceededError",
                     world := { World.fresh [("token", "a")] [] with quota := 8 } } ∧
    getToken.run { World.fresh [("token", "a")] [] with quota := 8 } =
      Except.ok (Value.str "a", { World.fresh [("token", "a")] [] with quota := 8 }) ∧
    (setToken "abc123").run { World.fresh [] [] with quota := 8 } =
      Except.error { name := "QuotaExceededError",
                     world := { World.fresh [] [] with quota := 8 } } ∧
    ({ World.fresh [("token", "a")] [] with quota := 8 } : World).storage ≠
      ({ World.fresh [] [] with quota := 8 } : World).storage := by
  refine ⟨setToken_run_ok _ _ (by decide), setToken_run_throw _ _ (by decide), rfl,
    setToken_run_throw _ _ (by decide), by decide⟩

/-- C9: in every world `getToken()` returns and leaves the whole world, storage
and navigation target included, as it was; `requireAuth()` returns and leaves
the storage as it was, and when `getToken()` returns a non-empty string it
leaves the navigations, hence the navigation target, as they were. -/
theorem reads_leave_storage (w : World) :
    (∃ t, getToken.run w = Except.ok (t, w)) ∧
    ∃ w', requireAuth.run w = Except.ok ((), w') ∧
      w'.storage = w.storage ∧
      (∀ s, s ≠ "" → getToken.run w = Except.ok (Value.str s, w) →
        w'.navigations = w.navigations ∧ w'.navTarget = w.navTarget) := by
  refine ⟨⟨_, getToken_run w⟩, _, requireAuth_run w, ?_, ?_⟩
  · cases h : w.storage.lookup "token" with
    | none => rfl
    | some s => by_cases hs : s = "" <;> simp [hs]
  · intro s hs hget
    rw [getToken_run] at hget
    cases h : w.storage.lookup "token" with
    | none => simp [h] at hget
    | some s' =>
      simp [h] at hget
      subst hget
      simp [hs]

/-- Witness for C9: with the token `"abc123"` stored, `requireAuth()` leaves the
storage and the (empty) navigations as they were. -/
theorem reads_leave_storage_witness :
    ∃ w', requireAuth.run (World.fresh [("token", "abc123")] []) = Except.ok ((), w') ∧
      w'.storage = [("token", "abc123")] ∧ w'.navigations = [] := by
  obtain ⟨_, w', h, hst, hnav⟩ := reads_leave_storage (World.fresh [("token", "abc123")] [])
  exact ⟨w', h, hst, (hnav "abc123" (by decide) rfl).1⟩

/-- C10: for every world, every string `v` and every key `k` other than
`token`, `localStorage.getItem(k)` returns after `setToken(v)` and after
`logout()` what it returned before the call, and `setToken(v)` leaves the
navigations, hence the navigation target, as they were. This holds whether
`setToken(v)` returns (as it does when the write stays within the quota) or
throws `QuotaExceededError`; `w1` is the world it leaves either way. -/
theorem writes_touch_only_token (w : World) (v k : String) (hk : k ≠ "token") :
    ∃ w1 w2 x,
      ((setToken v).run w = Except.ok ((), w1) ∨
        (setToken v).run w = Except.error { name := "QuotaExceededError", world := w1 }) ∧
      ((w.storage.insert "token" v).size ≤ w.quota →
        (setToken v).run w = Except.ok ((), w1)) ∧
      logout.run w = Except.ok ((), w2) ∧
      (localStorage_getItem k).run w = Except.ok (x, w) ∧
      (localStorage_getItem k).run w1 = Except.ok (x, w1) ∧
      (localStorage_getItem k).run w2 = Except.ok (x, w2) ∧
      w1.storage.lookup k = w.storage.lookup k ∧
      w2.storage.lookup k = w.storage.lookup k ∧
      w1.navigations = w.navigations ∧ w1.navTarget = w.navTarget := by
  by_cases hfit : (w.storage.insert "token" v).size ≤ w.quota
  · refine ⟨{ w with storage := w.storage.insert "token" v }, _, _,
      Or.inl (setToken_run_ok v w hfit), fun _ => setToken_run_ok v w hfit, logout_run w,
      localStorage_getItem_run k w, ?_, ?_,
      lookup_insert_other _ _ _ _ hk, lookup_erase_other _ _ _ hk, rfl, rfl⟩
    · rw [localStorage_getItem_run]
      simp [lookup_insert_other _ _ _ _ hk]
    · rw [localStorage_getItem_run]
      simp [lookup_erase_other _ _ _ hk]
  · refine ⟨w, _, _, Or.inr (setToken_run_throw v w hfit), fun h => absurd h hfit,
      logout_run w, localStorage_getItem_run k w, localStorage_getItem_run k w, ?_,
      rfl, lookup_erase_other _ _ _ hk, rfl, rfl⟩
    rw [localStorage_getItem_run]
    simp [lookup_erase_other _ _ _ hk]

/-- Witness for C10: the key `'theme'` keeps its value `"dark"` across
`setToken("abc123")` and across `logout()`. -/
theorem writes_touch_only_token_witness :
    ∃ w1 w2, (setToken "abc123").run (World.fresh [("theme", "dark"), ("token", "old")] []) =
        Except.ok ((), w1) ∧
      logout.run (World.fresh [("theme", "dark"), ("token", "old")] []) = Except.ok ((), w2) ∧
      w1.storage.lookup "theme" = some "dark" ∧ w2.storage.lookup "theme" = some "dark" := by
  obtain ⟨w1, w2, _, _, h1, h2, _, _, _, h3, h4, _⟩ :=
    writes_touch_only_token (World.fresh [("theme", "dark"), ("token", "old")] [])
      "abc123" "theme" (by decide)
  exact ⟨w1, w2, h1 (by decide), h2, h3.trans (by decide), h4.trans (by decide)⟩

/-- C5: take a page that contains an element with id `logout-btn` and on which
no listener is bound yet, with any storage, any earlier navigations and any
default action on the control. Then `getElementById` finds such an element, the
first one in tree order, at some position `i`. After the page load has run the
initialization hook, one click on that element hands back the event with
`defaultPrevented` set, changes the world exactly as one call of `logout()`
does, leaves `getToken()` returning `null`, and adds the single navigation
`/login`: the default action of the control is not followed. -/
theorem logout_button_click (w : World) (hl : w.listeners = [])
    (hmem : ∃ el ∈ w.elements, el.id = "logout-btn") :
    ∃ i, findById "logout-btn" w.elements 0 = some i ∧
      (w.elements.get? i).map Element.id = some "logout-btn" ∧
      (∀ j, (w.elements.get? j).map Element.id = some "logout-btn" → i ≤ j) ∧
      ∃ e0 w1 e w2, pageLoad.run w = Except.ok (e0, w1) ∧
        (click i).run w1 = Except.ok (e, w2) ∧
        e.defaultPrevented = true ∧
        logout.run w1 = Except.ok ((), w2) ∧
        getToken.run w2 = Except.ok (Value.null, w2) ∧
        w2.storage = w.storage.erase "token" ∧
        w2.navigations = w.navigations ++ ["/login"] ∧
        w2.navTarget = some "/login" := by
  obtain ⟨i, hfind⟩ := findById_isSome "logout-btn" w.elements 0 hmem
  have hspec := findById_spec _ _ _ _ hfind
  refine ⟨i, hfind, by simpa using hspec.2.1, ?_, _, _, _, _,
    pageLoad_run_some w i hl hfind, click_run_bound _ i ?_ ?_, rfl,
    logout_run _, ?_, rfl, rfl, navTarget_append _ _ _⟩
  · intro j hj
    by_contra hlt
    exact hspec.2.2 j (by omega) hj
  · simp [World.listenersOn]
  · simp [World.listenersOn]
  · rw [getToken_run]
    simp [lookup_erase_self]

/-- Witness for C5: a page whose second element is a link `logout-btn` to
`/home`, with a token stored. -/
theorem logout_button_click_witness :
    ∃ e0 w1 e w2,
      pageLoad.run (World.fresh [("token", "abc123")]
        [⟨"nav", none⟩, ⟨"logout-btn", some "/home"⟩]) = Except.ok (e0, w1) ∧
      (click 1).run w1 = Except.ok (e, w2) ∧
      e.defaultPrevented = true ∧ w2.storage = [] ∧ w2.navigations = ["/login"] := by
  obtain ⟨i, hi, _, _, e0, w1, e, w2, h1, h2, h3, _, _, h4, h5, _⟩ :=
    logout_button_click (World.fresh [("token", "abc123")]
      [⟨"nav", none⟩, ⟨"logout-btn", some "/home"⟩]) rfl
      ⟨⟨"logout-btn", some "/home"⟩, by decide, rfl⟩
  have hi1 : i = 1 := (Option.some.inj hi).symm
  subst hi1
  exact ⟨e0, w1, e, w2, h1, h2, h3, h4.trans (by decide), h5⟩

/-- C6: on a page with no element of id `'logout-btn'`, in every world, the
initialization hook returns normally and leaves the whole world as it was:
storage, navigations and listeners. When no listener was bound before the
script ran, the page load returns normally, leaves storage and navigations as
they were, and the only listener afterwards is the hook itself on the
document. -/
theorem hook_without_button (w : World) (e : Event)
    (h : ∀ el ∈ w.elements, el.id ≠ "logout-btn") :
    (Listener.domContentLoaded.call e).run w = Except.ok (e, w) ∧
    (w.listeners = [] → ∃ e0 w1, pageLoad.run w = Except.ok (e0, w1) ∧
      w1.storage = w.storage ∧ w1.navigations = w.navigations ∧
      w1.listeners = [(Target.document, "DOMContentLoaded", Listener.domContentLoaded)]) := by
  have hnone := findById_eq_none "logout-btn" w.elements 0 h
  refine ⟨hook_run_none e w hnone, fun hl => ?_⟩
  exact ⟨_, _, pageLoad_run_none w hl hnone, rfl, rfl, rfl⟩

/-- Witness for C6: a page with one element of another id and a token stored. -/
theorem hook_without_button_witness :
    (Listener.domContentLoaded.call ⟨"DOMContentLoaded", false, false⟩).run
        (World.fresh [("token", "abc123")] [⟨"nav", some "/home"⟩]) =
      Except.ok (⟨"DOMContentLoaded", false, false⟩,
        World.fresh [("token", "abc123")] [⟨"nav", some "/home"⟩]) :=
  (hook_without_button (World.fresh [("token", "abc123")] [⟨"nav", some "/home"⟩])
    ⟨"DOMContentLoaded", false, false⟩ (by decide)).1

/-- C8: the scenario. Start from a page whose storage holds no token (and has
room for the six-character token within the quota), with no navigation, on
which the page load has bound the logout button found at position `i`. Then
`requireAuth()` makes `/login` the navigation target. From a fresh navigation
state, `setToken("abc123")` followed by `requireAuth()` causes no navigation.
Then a click on the button leaves `getToken()` returning `null` and the
navigation target `/login`. -/
theorem scenario (st : Storage) (els : List Element) (i : Nat)
    (hst : st.lookup "token" = none)
    (hfit : (st.insert "token" "abc123").size ≤ defaultQuota)
    (hfind : findById "logout-btn" els 0 = some i) :
    ∃ e0 w1 w2 w3 w4 e w5,
      pageLoad.run (World.fresh st els) = Except.ok (e0, w1) ∧
      requireAuth.run w1 = Except.ok ((), w2) ∧
      w2.navTarget = some "/login" ∧
      (setToken "abc123").run { w2 with navigations := [] } = Except.ok ((), w3) ∧
      requireAuth.run w3 = Except.ok ((), w4) ∧
      w4.navigations = [] ∧ w4.navTarget = none ∧
      (click i).run w4 = Except.ok (e, w5) ∧
      getToken.run w5 = Except.ok (Value.null, w5) ∧
      w5.navigations = ["/login"] ∧
      w5.navTarget = some "/login" := by
  have hload := pageLoad_run_some (World.fresh st els) i rfl hfind
  have hreq1 : requireAuth.run { World.fresh st els with listeners :=
        [(Target.document, "DOMContentLoaded", Listener.domContentLoaded),
         (Target.element i, "click", Listener.logoutClick)] } =
      Except.ok ((), { World.fresh st els with
        navigations := ["/login"],
        listeners :=
          [(Target.document, "DOMContentLoaded", Listener.domContentLoaded),
           (Target.element i, "click", Listener.logoutClick)] }) := by
    rw [requireAuth_run]
    simp [World.fresh, hst]
  have hset : (setToken "abc123").run { World.fresh st els with
        navigations := [],
        listeners :=
          [(Target.document, "DOMContentLoaded", Listener.domContentLoaded),
           (Target.element i, "click", Listener.logoutClick)] } =
      Except.ok ((), { World.fresh st els with
        storage := st.insert "token" "abc123",
        navigations := [],
        listeners :=
          [(Target.document, "DOMContentLoaded", Listener.domContentLoaded),
           (Target.element i, "click", Listener.logoutClick)] }) :=
    setToken_run_ok _ _ hfit
  refine ⟨_, _, _, _, _, _, _, hload, hreq1, ?_, hset, requireAuth_run _, ?_, ?_,
    click_run_bound _ i ?_ ?_, ?_, ?_, ?_⟩
  · simp [World.navTarget]
  · simp [World.fresh, lookup_insert_self]
  · simp [World.fresh, lookup_insert_self, World.navTarget]
  · simp [World.fresh, lookup_insert_self, World.listenersOn]
  · simp [World.fresh, lookup_insert_self, World.listenersOn]
  · rw [getToken_run]
    simp [lookup_erase_self]
  · simp [World.fresh, lookup_insert_self]
  · simp [World.fresh, lookup_insert_self, World.navTarget]

/-- Witness for C8: the scenario on a page whose only element is the link
`logout-btn`, with an unrelated key in storage. -/
theorem scenario_witness :
    ∃ e0 w1 w2 w3 w4 e w5,
      pageLoad.run (World.fresh [("theme", "dark")] [⟨"logout-btn", some "/home"⟩]) =
        Except.ok (e0, w1) ∧
      requireAuth.run w1 = Except.ok ((), w2) ∧
      w2.navTarget = some "/login" ∧
      (setToken "abc123").run { w2 with navigations := [] } = Except.ok ((), w3) ∧
      requireAuth.run w3 = Except.ok ((), w4) ∧
      w4.navTarget = none ∧
      (click 0).run w4 = Except.ok (e, w5) ∧
      getToken.run w5 = Except.ok (Value.null, w5) ∧
      w5.navTarget = some "/login" := by
  obtain ⟨e0, w1, w2, w3, w4, e, w5, h1, h2, h3, h4, h5, _, h6, h7, h8, _, h9⟩ :=
    scenario [("theme", "dark")] [⟨"logout-btn", some "/home"⟩] 0 (by decide) (by decide)
      (by decide)
  exact ⟨e0, w1, w2, w3, w4, e, w5, h1, h2, h3, h4, h5, h6, h7, h8, h9⟩

end SessionHelper
